import Mathlib

/-!
Shallow embedding of the cost-projection logic of src/Cost_Estimator.py.

The script reads a flat set of numeric and enumerated inputs from sidebar
widgets, runs a 12-iteration loop producing three baseline cost series
(compute, storage, transfer), applies the base discount, then recomputes an
optimized compute series and applies a combined discount, ending with totals
and savings metrics.  All of that arithmetic is embedded here over the exact
rationals; integer-valued widget inputs are natural numbers, the TB volume
inputs are rationals, and the two size select-boxes are an enumerated type
(with the "Same" sentinel of the reduced-size select-box rendered as
Option.none).  Definition names follow the script's variable names.
-/

/-- Warehouse sizes offered by the "Warehouse Size" select-box. -/
inductive VwSize where
  | xsmall
  | small
  | medium
  | large
  | xlarge

/-- size_credit_mapping = {"X-Small": 1, "Small": 2, "Medium": 4, "Large": 8, "X-Large": 16} -/
def size_credit_mapping : VwSize → ℚ
  | .xsmall => 1
  | .small => 2
  | .medium => 4
  | .large => 8
  | .xlarge => 16

/-- CREDIT_COST = 2.0 ($ per credit) -/
def CREDIT_COST : ℚ := 2

/-- STORAGE_COST_PER_TB = 40 ($ per TB/month) -/
def STORAGE_COST_PER_TB : ℚ := 40

/-- DATA_TRANSFER_COST_PER_TB = 90 ($ per TB/month) -/
def DATA_TRANSFER_COST_PER_TB : ℚ := 90

/-- def gen2_scaling_discount(num_warehouses):
      additional_discount = min((num_warehouses - 1) * 0.05, 0.20) if num_warehouses > 1 else 0
      return 1 - additional_discount -/
def gen2_scaling_discount (num_warehouses : ℕ) : ℚ :=
  1 - (if 1 < num_warehouses then
         min (((num_warehouses : ℚ) - 1) * 0.05) 0.20
       else 0)

/-- The sidebar inputs of the script, one field per widget.
Integer widgets (number inputs with integer bounds, sliders) are ℕ; the two
TB volume inputs are ℚ; reduce_vw_size is none for the "Same" sentinel. -/
structure Config where
  use_gen2 : Bool
  num_vws : ℕ
  vw_size : VwSize
  hours_per_day : ℕ
  active_days_per_month : ℕ
  compute_growth : ℕ
  storage_tb : ℚ
  storage_growth : ℕ
  data_transfer_tb : ℚ
  transfer_growth : ℕ
  discount_pct : ℕ
  pause_hours_per_day : ℕ
  reduce_vw_size : Option VwSize
  additional_discount : ℕ

/-- base_credits = num_vws * size_credit_mapping[vw_size] * hours_per_day * active_days_per_month,
with the Gen-2 adjustments (lines 66-70) applied when the flag is set.
The value does not depend on the month index. -/
def base_credits (cfg : Config) : ℚ :=
  let b : ℚ := (cfg.num_vws : ℚ) * size_credit_mapping cfg.vw_size *
    (cfg.hours_per_day : ℚ) * (cfg.active_days_per_month : ℚ)
  if cfg.use_gen2 then b * 0.70 * gen2_scaling_discount cfg.num_vws else b

/-- monthly_compute = base_credits * CREDIT_COST * (1 + (month * compute_growth / 100)) -/
def monthly_compute (cfg : Config) (month : ℕ) : ℚ :=
  base_credits cfg * CREDIT_COST * (1 + (month : ℚ) * (cfg.compute_growth : ℚ) / 100)

/-- The running storage level: starts at storage_tb and is multiplied by
(1 + storage_growth/100) once per completed loop iteration (line 78).
storage_current cfg m is the level read in iteration m. -/
def storage_current (cfg : Config) : ℕ → ℚ
  | 0 => cfg.storage_tb
  | m + 1 => storage_current cfg m * (1 + (cfg.storage_growth : ℚ) / 100)

/-- The running transfer level, updated at line 83. -/
def transfer_current (cfg : Config) : ℕ → ℚ
  | 0 => cfg.data_transfer_tb
  | m + 1 => transfer_current cfg m * (1 + (cfg.transfer_growth : ℚ) / 100)

/-- monthly_storage = storage_current * STORAGE_COST_PER_TB (line 76, read before the update) -/
def monthly_storage (cfg : Config) (month : ℕ) : ℚ :=
  storage_current cfg month * STORAGE_COST_PER_TB

/-- monthly_transfer = transfer_current * DATA_TRANSFER_COST_PER_TB (line 81) -/
def monthly_transfer (cfg : Config) (month : ℕ) : ℚ :=
  transfer_current cfg month * DATA_TRANSFER_COST_PER_TB

/-- The compute_costs list as built by the loop, before the discount of line 86. -/
def compute_costs_pre (cfg : Config) : List ℚ :=
  (List.range 12).map (monthly_compute cfg)

/-- The storage_costs list as built by the loop, before the discount of line 87. -/
def storage_costs_pre (cfg : Config) : List ℚ :=
  (List.range 12).map (monthly_storage cfg)

/-- The transfer_costs list as built by the loop, before the discount of line 88. -/
def transfer_costs_pre (cfg : Config) : List ℚ :=
  (List.range 12).map (monthly_transfer cfg)

/-- compute_costs = [c * (1 - discount_pct / 100) for c in compute_costs] (line 86) -/
def compute_costs (cfg : Config) : List ℚ :=
  (compute_costs_pre cfg).map (fun c => c * (1 - (cfg.discount_pct : ℚ) / 100))

/-- storage_costs = [s * (1 - discount_pct / 100) for s in storage_costs] (line 87) -/
def storage_costs (cfg : Config) : List ℚ :=
  (storage_costs_pre cfg).map (fun s => s * (1 - (cfg.discount_pct : ℚ) / 100))

/-- transfer_costs = [t * (1 - discount_pct / 100) for t in transfer_costs] (line 88) -/
def transfer_costs (cfg : Config) : List ℚ :=
  (transfer_costs_pre cfg).map (fun t => t * (1 - (cfg.discount_pct : ℚ) / 100))

/-- total_costs = np.array(compute_costs) + np.array(storage_costs) + np.array(transfer_costs)
(elementwise, line 90) -/
def total_costs (cfg : Config) : List ℚ :=
  List.zipWith (· + ·)
    (List.zipWith (· + ·) (compute_costs cfg) (storage_costs cfg))
    (transfer_costs cfg)

/-- total_annual_cost = total_costs.sum() (line 91) -/
def total_annual_cost (cfg : Config) : ℚ := (total_costs cfg).sum

/-- optimized_size_credit = size_credit_mapping[vw_size] if reduce_vw_size == "Same"
else size_credit_mapping[reduce_vw_size] (line 94) -/
def optimized_size_credit (cfg : Config) : ℚ :=
  match cfg.reduce_vw_size with
  | none => size_credit_mapping cfg.vw_size
  | some s => size_credit_mapping s

/-- effective_hours = max(hours_per_day - pause_hours_per_day, 0) (line 101) -/
def effective_hours (cfg : Config) : ℚ :=
  max ((cfg.hours_per_day : ℚ) - (cfg.pause_hours_per_day : ℚ)) 0

/-- base_credits_opt = num_vws * optimized_size_credit * effective_hours * active_days_per_month,
with the Gen-2 adjustments of lines 104-110 (including the extra 0.90 factor
when pause hours are positive). -/
def base_credits_opt (cfg : Config) : ℚ :=
  let b : ℚ := (cfg.num_vws : ℚ) * optimized_size_credit cfg * effective_hours cfg *
    (cfg.active_days_per_month : ℚ)
  if cfg.use_gen2 then
    let b2 := b * 0.70 * gen2_scaling_discount cfg.num_vws
    if 0 < cfg.pause_hours_per_day then b2 * 0.90 else b2
  else b

/-- monthly_compute_opt = base_credits_opt * CREDIT_COST * (1 + (month * compute_growth / 100)) (line 112) -/
def monthly_compute_opt (cfg : Config) (month : ℕ) : ℚ :=
  base_credits_opt cfg * CREDIT_COST * (1 + (month : ℚ) * (cfg.compute_growth : ℚ) / 100)

/-- The optimized_compute_costs list as built by the loop of lines 100-113,
before the discount of line 120. -/
def optimized_compute_costs_pre (cfg : Config) : List ℚ :=
  (List.range 12).map (monthly_compute_opt cfg)

/-- total_discount_opt = discount_pct + additional_discount (line 119) -/
def total_discount_opt (cfg : Config) : ℚ :=
  (cfg.discount_pct : ℚ) + (cfg.additional_discount : ℚ)

/-- optimized_compute_costs = [c * (1 - total_discount_opt / 100) for c in optimized_compute_costs] (line 120) -/
def optimized_compute_costs (cfg : Config) : List ℚ :=
  (optimized_compute_costs_pre cfg).map (fun c => c * (1 - total_discount_opt cfg / 100))

/-- optimized_storage_costs = [s * (1 - total_discount_opt / 100) for s in storage_costs] (line 121).
Note the comprehension ranges over storage_costs, the baseline list that
already carries the base discount of line 87. -/
def optimized_storage_costs (cfg : Config) : List ℚ :=
  (storage_costs cfg).map (fun s => s * (1 - total_discount_opt cfg / 100))

/-- optimized_transfer_costs = [t * (1 - total_discount_opt / 100) for t in transfer_costs] (line 122),
ranging over the baseline transfer_costs that already carry the base discount. -/
def optimized_transfer_costs (cfg : Config) : List ℚ :=
  (transfer_costs cfg).map (fun t => t * (1 - total_discount_opt cfg / 100))

/-- total_optimized_costs, elementwise sum of the three optimized lists (lines 124-128). -/
def total_optimized_costs (cfg : Config) : List ℚ :=
  List.zipWith (· + ·)
    (List.zipWith (· + ·) (optimized_compute_costs cfg) (optimized_storage_costs cfg))
    (optimized_transfer_costs cfg)

/-- total_optimized_annual = total_optimized_costs.sum() (line 129) -/
def total_optimized_annual (cfg : Config) : ℚ := (total_optimized_costs cfg).sum

/-- total_savings = total_annual_cost - total_optimized_annual (line 131) -/
def total_savings (cfg : Config) : ℚ :=
  total_annual_cost cfg - total_optimized_annual cfg

/-- savings_pct = (total_savings / total_annual_cost) * 100 if total_annual_cost > 0 else 0 (line 132) -/
def savings_pct (cfg : Config) : ℚ :=
  if 0 < total_annual_cost cfg then total_savings cfg / total_annual_cost cfg * 100 else 0

/-- The documented input ranges of the data model: positive counts and hours,
active days 1-31, growth rates 0-20, non-negative volumes, discounts 0-50,
pause hours 0-24.  Lower percentage bounds hold automatically as the fields
are naturals. -/
def Valid (cfg : Config) : Prop :=
  0 < cfg.num_vws ∧ 0 < cfg.hours_per_day ∧
  1 ≤ cfg.active_days_per_month ∧ cfg.active_days_per_month ≤ 31 ∧
  cfg.compute_growth ≤ 20 ∧
  0 ≤ cfg.storage_tb ∧ cfg.storage_growth ≤ 20 ∧
  0 ≤ cfg.data_transfer_tb ∧ cfg.transfer_growth ≤ 20 ∧
  cfg.discount_pct ≤ 50 ∧
  cfg.pause_hours_per_day ≤ 24 ∧ cfg.additional_discount ≤ 50

instance (cfg : Config) : Decidable (Valid cfg) := by
  unfold Valid
  infer_instance

/-! ## Example configurations used as concrete inputs -/

/-- A configuration with nonzero growth rates (no discounts, no optimization levers). -/
def cfg_growth : Config :=
  { use_gen2 := false, num_vws := 2, vw_size := .small, hours_per_day := 12,
    active_days_per_month := 22, compute_growth := 10, storage_tb := 5,
    storage_growth := 2, data_transfer_tb := 1, transfer_growth := 3,
    discount_pct := 0, pause_hours_per_day := 0, reduce_vw_size := none,
    additional_discount := 0 }

/-- A Gen-2 configuration with five warehouses. -/
def cfg_gen2 : Config :=
  { use_gen2 := true, num_vws := 5, vw_size := .medium, hours_per_day := 10,
    active_days_per_month := 20, compute_growth := 0, storage_tb := 5,
    storage_growth := 0, data_transfer_tb := 1, transfer_growth := 0,
    discount_pct := 0, pause_hours_per_day := 0, reduce_vw_size := none,
    additional_discount := 0 }

/-- A configuration with a 10% base discount and every optimization lever off
(no pausing, no size change, no extra discount). -/
def cfg_double_discount : Config :=
  { use_gen2 := false, num_vws := 1, vw_size := .xsmall, hours_per_day := 1,
    active_days_per_month := 1, compute_growth := 0, storage_tb := 5,
    storage_growth := 0, data_transfer_tb := 1, transfer_growth := 0,
    discount_pct := 10, pause_hours_per_day := 0, reduce_vw_size := none,
    additional_discount := 0 }

/-- A configuration violating the data model: a negative storage volume
(unreachable through the clamped widgets). -/
def cfg_invalid : Config :=
  { use_gen2 := false, num_vws := 1, vw_size := .xsmall, hours_per_day := 1,
    active_days_per_month := 1, compute_growth := 0, storage_tb := -1,
    storage_growth := 0, data_transfer_tb := 0, transfer_growth := 0,
    discount_pct := 0, pause_hours_per_day := 0, reduce_vw_size := none,
    additional_discount := 0 }

/-- A valid configuration whose "reduced" warehouse size (Large) is larger
than the original (X-Small). -/
def cfg_upsize : Config :=
  { use_gen2 := false, num_vws := 1, vw_size := .xsmall, hours_per_day := 10,
    active_days_per_month := 20, compute_growth := 0, storage_tb := 0,
    storage_growth := 0, data_transfer_tb := 0, transfer_growth := 0,
    discount_pct := 0, pause_hours_per_day := 0, reduce_vw_size := some .large,
    additional_discount := 0 }

/-! ## Helper lemmas -/

theorem map_range_eq_replicate (f : ℕ → ℚ) (c : ℚ) (n : ℕ) (h : ∀ m, m < n → f m = c) :
    (List.range n).map f = List.replicate n c := by
  induction n with
  | zero => simp
  | succ k ih =>
    rw [List.range_succ, List.map_append,
      ih (fun m hm => h m (by omega)), List.replicate_succ']
    simp [h k (by omega)]

theorem sum_zipWith_add (a b : List ℚ) (h : a.length = b.length) :
    (List.zipWith (· + ·) a b).sum = a.sum + b.sum := by
  induction a generalizing b with
  | nil =>
    cases b with
    | nil => simp
    | cons y ys => simp at h
  | cons x xs ih =>
    cases b with
    | nil => simp at h
    | cons y ys =>
      simp only [List.zipWith_cons_cons, List.sum_cons]
      rw [ih ys (by simpa using h)]
      ring

theorem compute_costs_length (cfg : Config) : (compute_costs cfg).length = 12 := by
  simp [compute_costs, compute_costs_pre]

theorem storage_costs_length (cfg : Config) : (storage_costs cfg).length = 12 := by
  simp [storage_costs, storage_costs_pre]

theorem transfer_costs_length (cfg : Config) : (transfer_costs cfg).length = 12 := by
  simp [transfer_costs, transfer_costs_pre]

theorem optimized_compute_costs_length (cfg : Config) :
    (optimized_compute_costs cfg).length = 12 := by
  simp [optimized_compute_costs, optimized_compute_costs_pre]

theorem optimized_storage_costs_length (cfg : Config) :
    (optimized_storage_costs cfg).length = 12 := by
  simp [optimized_storage_costs, storage_costs_length]

theorem optimized_transfer_costs_length (cfg : Config) :
    (optimized_transfer_costs cfg).length = 12 := by
  simp [optimized_transfer_costs, transfer_costs_length]

theorem storage_current_closed (cfg : Config) (m : ℕ) :
    storage_current cfg m = cfg.storage_tb * (1 + (cfg.storage_growth : ℚ) / 100) ^ m := by
  induction m with
  | zero => simp [storage_current]
  | succ n ih =>
    rw [storage_current, ih, pow_succ]
    ring

theorem transfer_current_closed (cfg : Config) (m : ℕ) :
    transfer_current cfg m = cfg.data_transfer_tb * (1 + (cfg.transfer_growth : ℚ) / 100) ^ m := by
  induction m with
  | zero => simp [transfer_current]
  | succ n ih =>
    rw [transfer_current, ih, pow_succ]
    ring

/-! ## Claims -/

/-- Claim C2: for every configuration and month m in 0..11, the pre-discount
baseline compute cost of month m is the month-0 value times
(1 + m * compute_growth/100): the growth multiplier is linear in the month
index, not compounding. -/
theorem claim_C2_linear_compute_growth (cfg : Config) (m : ℕ) (hm : m < 12) :
    monthly_compute cfg m =
      monthly_compute cfg 0 * (1 + (m : ℚ) * (cfg.compute_growth : ℚ) / 100) := by
  unfold monthly_compute
  push_cast
  ring

/-- Witness for claim C2 at month 3 of a configuration with 10% compute growth. -/
theorem claim_C2_linear_compute_growth_witness :
    (3 : ℕ) < 12 ∧
    monthly_compute cfg_growth 3 =
      monthly_compute cfg_growth 0 *
        (1 + ((3 : ℕ) : ℚ) * (cfg_growth.compute_growth : ℚ) / 100) :=
  ⟨by norm_num, claim_C2_linear_compute_growth cfg_growth 3 (by norm_num)⟩

/-- Claim C3: for every configuration and month m in 0..11, the pre-discount
storage cost of month m is storage_tb * STORAGE_COST_PER_TB * (1+storage_growth/100)^m
and the pre-discount transfer cost is data_transfer_tb * DATA_TRANSFER_COST_PER_TB *
(1+transfer_growth/100)^m: the running levels compound month over month,
each level being emitted before it is multiplied. -/
theorem claim_C3_compounding_storage_transfer (cfg : Config) (m : ℕ) (hm : m < 12) :
    monthly_storage cfg m =
      cfg.storage_tb * STORAGE_COST_PER_TB * (1 + (cfg.storage_growth : ℚ) / 100) ^ m ∧
    monthly_transfer cfg m =
      cfg.data_transfer_tb * DATA_TRANSFER_COST_PER_TB * (1 + (cfg.transfer_growth : ℚ) / 100) ^ m := by
  constructor
  · unfold monthly_storage
    rw [storage_current_closed]
    ring
  · unfold monthly_transfer
    rw [transfer_current_closed]
    ring

/-- Witness for claim C3 at month 2 of a configuration with 2% storage growth
and 3% transfer growth. -/
theorem claim_C3_compounding_storage_transfer_witness :
    (2 : ℕ) < 12 ∧
    (monthly_storage cfg_growth 2 =
      cfg_growth.storage_tb * STORAGE_COST_PER_TB * (1 + (cfg_growth.storage_growth : ℚ) / 100) ^ 2 ∧
    monthly_transfer cfg_growth 2 =
      cfg_growth.data_transfer_tb * DATA_TRANSFER_COST_PER_TB * (1 + (cfg_growth.transfer_growth : ℚ) / 100) ^ 2) :=
  ⟨by norm_num, claim_C3_compounding_storage_transfer cfg_growth 2 (by norm_num)⟩

/-- Claim C4: with the Gen-2 flag set, baseline credits are the raw credits
times exactly 0.70 and then times the scaling-discount factor
1 - min((n-1)*0.05, 0.20); the factor is 1 for warehouse counts at most 1 and
is exactly 0.80 for every warehouse count of at least 5. -/
theorem claim_C4_gen2_factors (cfg : Config) (h : cfg.use_gen2 = true) (n : ℕ) :
    base_credits cfg =
      ((cfg.num_vws : ℚ) * size_credit_mapping cfg.vw_size * (cfg.hours_per_day : ℚ) *
        (cfg.active_days_per_month : ℚ)) * 0.70 * gen2_scaling_discount cfg.num_vws ∧
    (1 ≤ n → gen2_scaling_discount n = 1 - min (((n : ℚ) - 1) * 0.05) 0.20) ∧
    (n ≤ 1 → gen2_scaling_discount n = 1) ∧
    (5 ≤ n → gen2_scaling_discount n = 0.80) := by
  refine ⟨?_, ?_, ?_, ?_⟩
  · simp [base_credits, h]
  · intro hn
    unfold gen2_scaling_discount
    rcases Nat.lt_or_ge 1 n with h1 | h1
    · rw [if_pos h1]
    · interval_cases n
      norm_num
  · intro hn
    unfold gen2_scaling_discount
    rw [if_neg (by omega)]
    norm_num
  · intro hn
    unfold gen2_scaling_discount
    rw [if_pos (by omega), min_eq_right]
    · norm_num
    · have h5 : (5 : ℚ) ≤ (n : ℚ) := by exact_mod_cast hn
      nlinarith

/-- Witness for claim C4 at a five-warehouse Gen-2 configuration. -/
theorem claim_C4_gen2_factors_witness :
    cfg_gen2.use_gen2 = true ∧
    base_credits cfg_gen2 =
      ((cfg_gen2.num_vws : ℚ) * size_credit_mapping cfg_gen2.vw_size *
        (cfg_gen2.hours_per_day : ℚ) * (cfg_gen2.active_days_per_month : ℚ)) * 0.70 *
        gen2_scaling_discount cfg_gen2.num_vws ∧
    gen2_scaling_discount 5 = 0.80 :=
  ⟨rfl, (claim_C4_gen2_factors cfg_gen2 rfl 5).1,
    (claim_C4_gen2_factors cfg_gen2 rfl 5).2.2.2 (by norm_num)⟩

/-- Claim C5: for each scenario the three category subtotals sum exactly to
that scenario's grand total. -/
theorem claim_C5_subtotals_sum_to_total (cfg : Config) :
    total_annual_cost cfg =
      (compute_costs cfg).sum + (storage_costs cfg).sum + (transfer_costs cfg).sum ∧
    total_optimized_annual cfg =
      (optimized_compute_costs cfg).sum + (optimized_storage_costs cfg).sum +
        (optimized_transfer_costs cfg).sum := by
  constructor
  · unfold total_annual_cost total_costs
    rw [sum_zipWith_add _ _
        (by simp [List.length_zipWith, compute_costs_length, storage_costs_length,
          transfer_costs_length]),
      sum_zipWith_add _ _
        ((compute_costs_length cfg).trans (storage_costs_length cfg).symm)]
  · unfold total_optimized_annual total_optimized_costs
    rw [sum_zipWith_add _ _
        (by simp [List.length_zipWith, optimized_compute_costs_length,
          optimized_storage_costs_length, optimized_transfer_costs_length]),
      sum_zipWith_add _ _
        ((optimized_compute_costs_length cfg).trans (optimized_storage_costs_length cfg).symm)]

/-! ## Nonnegativity helpers -/

theorem size_credit_mapping_pos (s : VwSize) : 0 < size_credit_mapping s := by
  cases s <;> norm_num [size_credit_mapping]

theorem gen2_scaling_discount_nonneg (n : ℕ) : 0 ≤ gen2_scaling_discount n := by
  unfold gen2_scaling_discount
  split
  · have h := min_le_right (((n : ℚ) - 1) * 0.05) 0.20
    have h2 : (0.20 : ℚ) ≤ 1 := by norm_num
    linarith
  · norm_num

theorem base_credits_nonneg (cfg : Config) : 0 ≤ base_credits cfg := by
  have hb : 0 ≤ (cfg.num_vws : ℚ) * size_credit_mapping cfg.vw_size *
      (cfg.hours_per_day : ℚ) * (cfg.active_days_per_month : ℚ) :=
    mul_nonneg (mul_nonneg (mul_nonneg (Nat.cast_nonneg _) (size_credit_mapping_pos _).le)
      (Nat.cast_nonneg _)) (Nat.cast_nonneg _)
  cases h : cfg.use_gen2 with
  | false => simpa [base_credits, h] using hb
  | true =>
    simp only [base_credits, h, if_true]
    exact mul_nonneg (mul_nonneg hb (by norm_num)) (gen2_scaling_discount_nonneg _)

theorem monthly_compute_nonneg (cfg : Config) (m : ℕ) : 0 ≤ monthly_compute cfg m :=
  mul_nonneg (mul_nonneg (base_credits_nonneg cfg) (by norm_num [CREDIT_COST]))
    (by positivity)

theorem storage_current_nonneg (cfg : Config) (h : 0 ≤ cfg.storage_tb) (m : ℕ) :
    0 ≤ storage_current cfg m := by
  induction m with
  | zero => exact h
  | succ n ih => exact mul_nonneg ih (by positivity)

theorem transfer_current_nonneg (cfg : Config) (h : 0 ≤ cfg.data_transfer_tb) (m : ℕ) :
    0 ≤ transfer_current cfg m := by
  induction m with
  | zero => exact h
  | succ n ih => exact mul_nonneg ih (by positivity)

theorem monthly_storage_nonneg (cfg : Config) (h : 0 ≤ cfg.storage_tb) (m : ℕ) :
    0 ≤ monthly_storage cfg m :=
  mul_nonneg (storage_current_nonneg cfg h m) (by norm_num [STORAGE_COST_PER_TB])

theorem monthly_transfer_nonneg (cfg : Config) (h : 0 ≤ cfg.data_transfer_tb) (m : ℕ) :
    0 ≤ monthly_transfer cfg m :=
  mul_nonneg (transfer_current_nonneg cfg h m) (by norm_num [DATA_TRANSFER_COST_PER_TB])

theorem base_discount_factor_nonneg (cfg : Config) (h : cfg.discount_pct ≤ 50) :
    0 ≤ 1 - (cfg.discount_pct : ℚ) / 100 := by
  have hd : (cfg.discount_pct : ℚ) ≤ 50 := by exact_mod_cast h
  linarith

theorem combined_discount_factor_nonneg (cfg : Config) (h1 : cfg.discount_pct ≤ 50)
    (h2 : cfg.additional_discount ≤ 50) : 0 ≤ 1 - total_discount_opt cfg / 100 := by
  unfold total_discount_opt
  have ha : (cfg.discount_pct : ℚ) ≤ 50 := by exact_mod_cast h1
  have hb : (cfg.additional_discount : ℚ) ≤ 50 := by exact_mod_cast h2
  linarith

theorem optimized_size_credit_pos (cfg : Config) : 0 < optimized_size_credit cfg := by
  unfold optimized_size_credit
  rcases hr : cfg.reduce_vw_size with _ | s <;> simp only [hr] <;>
    exact size_credit_mapping_pos _

theorem effective_hours_nonneg (cfg : Config) : 0 ≤ effective_hours cfg :=
  le_max_right _ _

theorem base_credits_opt_nonneg (cfg : Config) : 0 ≤ base_credits_opt cfg := by
  have hb : 0 ≤ (cfg.num_vws : ℚ) * optimized_size_credit cfg * effective_hours cfg *
      (cfg.active_days_per_month : ℚ) :=
    mul_nonneg (mul_nonneg (mul_nonneg (Nat.cast_nonneg _) (optimized_size_credit_pos cfg).le)
      (effective_hours_nonneg cfg)) (Nat.cast_nonneg _)
  have hg := gen2_scaling_discount_nonneg cfg.num_vws
  simp only [base_credits_opt]
  split_ifs
  · exact mul_nonneg (mul_nonneg (mul_nonneg hb (by norm_num)) hg) (by norm_num)
  · exact mul_nonneg (mul_nonneg hb (by norm_num)) hg
  · exact hb

theorem monthly_compute_opt_nonneg (cfg : Config) (m : ℕ) : 0 ≤ monthly_compute_opt cfg m :=
  mul_nonneg (mul_nonneg (base_credits_opt_nonneg cfg) (by norm_num [CREDIT_COST]))
    (by positivity)

theorem compute_costs_nonneg (cfg : Config) (h : Valid cfg) :
    ∀ x ∈ compute_costs cfg, 0 ≤ x := by
  obtain ⟨h1, h2, h3, h4, h5, h6, h7, h8, h9, h10, h11, h12⟩ := h
  intro x hx
  simp only [compute_costs, compute_costs_pre, List.map_map, List.mem_map,
    List.mem_range, Function.comp_apply] at hx
  obtain ⟨m, _, rfl⟩ := hx
  exact mul_nonneg (monthly_compute_nonneg cfg m) (base_discount_factor_nonneg cfg h10)

theorem storage_costs_nonneg (cfg : Config) (h : Valid cfg) :
    ∀ x ∈ storage_costs cfg, 0 ≤ x := by
  obtain ⟨h1, h2, h3, h4, h5, h6, h7, h8, h9, h10, h11, h12⟩ := h
  intro x hx
  simp only [storage_costs, storage_costs_pre, List.map_map, List.mem_map,
    List.mem_range, Function.comp_apply] at hx
  obtain ⟨m, _, rfl⟩ := hx
  exact mul_nonneg (monthly_storage_nonneg cfg h6 m) (base_discount_factor_nonneg cfg h10)

theorem transfer_costs_nonneg (cfg : Config) (h : Valid cfg) :
    ∀ x ∈ transfer_costs cfg, 0 ≤ x := by
  obtain ⟨h1, h2, h3, h4, h5, h6, h7, h8, h9, h10, h11, h12⟩ := h
  intro x hx
  simp only [transfer_costs, transfer_costs_pre, List.map_map, List.mem_map,
    List.mem_range, Function.comp_apply] at hx
  obtain ⟨m, _, rfl⟩ := hx
  exact mul_nonneg (monthly_transfer_nonneg cfg h8 m) (base_discount_factor_nonneg cfg h10)

theorem optimized_compute_costs_nonneg (cfg : Config) (h : Valid cfg) :
    ∀ x ∈ optimized_compute_costs cfg, 0 ≤ x := by
  have h10 := h.2.2.2.2.2.2.2.2.2.1
  have h12 := h.2.2.2.2.2.2.2.2.2.2.2
  intro x hx
  simp only [optimized_compute_costs, optimized_compute_costs_pre, List.map_map,
    List.mem_map, List.mem_range, Function.comp_apply] at hx
  obtain ⟨m, _, rfl⟩ := hx
  exact mul_nonneg (monthly_compute_opt_nonneg cfg m)
    (combined_discount_factor_nonneg cfg h10 h12)

theorem optimized_storage_costs_nonneg (cfg : Config) (h : Valid cfg) :
    ∀ x ∈ optimized_storage_costs cfg, 0 ≤ x := by
  have h10 := h.2.2.2.2.2.2.2.2.2.1
  have h12 := h.2.2.2.2.2.2.2.2.2.2.2
  intro x hx
  simp only [optimized_storage_costs, List.mem_map] at hx
  obtain ⟨s, hs, rfl⟩ := hx
  exact mul_nonneg (storage_costs_nonneg cfg h s hs)
    (combined_discount_factor_nonneg cfg h10 h12)

theorem optimized_transfer_costs_nonneg (cfg : Config) (h : Valid cfg) :
    ∀ x ∈ optimized_transfer_costs cfg, 0 ≤ x := by
  have h10 := h.2.2.2.2.2.2.2.2.2.1
  have h12 := h.2.2.2.2.2.2.2.2.2.2.2
  intro x hx
  simp only [optimized_transfer_costs, List.mem_map] at hx
  obtain ⟨t, ht, rfl⟩ := hx
  exact mul_nonneg (transfer_costs_nonneg cfg h t ht)
    (combined_discount_factor_nonneg cfg h10 h12)

theorem total_annual_cost_nonneg (cfg : Config) (h : Valid cfg) :
    0 ≤ total_annual_cost cfg := by
  unfold total_annual_cost total_costs
  rw [sum_zipWith_add _ _
      (by simp [List.length_zipWith, compute_costs_length, storage_costs_length,
        transfer_costs_length]),
    sum_zipWith_add _ _
      ((compute_costs_length cfg).trans (storage_costs_length cfg).symm)]
  have hc := List.sum_nonneg (compute_costs_nonneg cfg h)
  have hs := List.sum_nonneg (storage_costs_nonneg cfg h)
  have ht := List.sum_nonneg (transfer_costs_nonneg cfg h)
  linarith

/-- Claim C6: the savings percentage equals
(baseline_total - optimized_total) / baseline_total * 100 whenever the
baseline total is nonzero, and is 0 when the baseline total is 0, so the
guarded division never divides by zero. -/
theorem claim_C6_savings_pct (cfg : Config) (h : Valid cfg) :
    (total_annual_cost cfg ≠ 0 →
      savings_pct cfg =
        (total_annual_cost cfg - total_optimized_annual cfg) / total_annual_cost cfg * 100) ∧
    (total_annual_cost cfg = 0 → savings_pct cfg = 0) := by
  constructor
  · intro hne
    have hpos : 0 < total_annual_cost cfg :=
      lt_of_le_of_ne (total_annual_cost_nonneg cfg h) (Ne.symm hne)
    unfold savings_pct total_savings
    rw [if_pos hpos]
  · intro h0
    unfold savings_pct
    rw [if_neg (by rw [h0]; exact lt_irrefl 0)]

/-- Witness for claim C6 at a valid configuration with a positive baseline total. -/
theorem claim_C6_savings_pct_witness :
    Valid cfg_growth ∧
    ((total_annual_cost cfg_growth ≠ 0 →
      savings_pct cfg_growth =
        (total_annual_cost cfg_growth - total_optimized_annual cfg_growth) /
          total_annual_cost cfg_growth * 100) ∧
    (total_annual_cost cfg_growth = 0 → savings_pct cfg_growth = 0)) :=
  ⟨by decide, claim_C6_savings_pct cfg_growth (by decide)⟩

/-- Claim C7: the optimized compute series is exactly the series built from
the possibly-reduced size's credit multiplier (the original size's when the
"Same" sentinel, modelled as none, is selected), effective hours
max(hours_per_day - pause_hours, 0), the Gen-2 factors 0.70 and
gen2_scaling_discount plus a flat 0.90 exactly when pause hours are positive,
the credit price, the linear monthly growth multiplier, and the combined
discount factor. -/
theorem claim_C7_optimized_compute_series (cfg : Config) :
    optimized_compute_costs cfg = (List.range 12).map (fun (m : ℕ) =>
      (cfg.num_vws : ℚ) *
      (match cfg.reduce_vw_size with
       | none => size_credit_mapping cfg.vw_size
       | some s => size_credit_mapping s) *
      max ((cfg.hours_per_day : ℚ) - (cfg.pause_hours_per_day : ℚ)) 0 *
      (cfg.active_days_per_month : ℚ) *
      (if cfg.use_gen2 then
         0.70 * gen2_scaling_discount cfg.num_vws *
           (if 0 < cfg.pause_hours_per_day then 0.90 else 1)
       else 1) *
      CREDIT_COST * (1 + (m : ℚ) * (cfg.compute_growth : ℚ) / 100) *
      (1 - ((cfg.discount_pct : ℚ) + (cfg.additional_discount : ℚ)) / 100)) := by
  simp only [optimized_compute_costs, optimized_compute_costs_pre, List.map_map]
  apply List.map_congr_left
  intro m _
  simp only [Function.comp_apply, monthly_compute_opt, base_credits_opt, effective_hours,
    optimized_size_credit, total_discount_opt]
  rcases hr : cfg.reduce_vw_size with _ | s <;> simp only [hr] <;> split_ifs <;> ring

/-- Claim C8: for configurations within the documented input ranges, every
value of all six monthly series (both scenarios) is non-negative. -/
theorem claim_C8_series_nonneg (cfg : Config) (h : Valid cfg) :
    (∀ x ∈ compute_costs cfg, 0 ≤ x) ∧ (∀ x ∈ storage_costs cfg, 0 ≤ x) ∧
    (∀ x ∈ transfer_costs cfg, 0 ≤ x) ∧ (∀ x ∈ optimized_compute_costs cfg, 0 ≤ x) ∧
    (∀ x ∈ optimized_storage_costs cfg, 0 ≤ x) ∧
    (∀ x ∈ optimized_transfer_costs cfg, 0 ≤ x) :=
  ⟨compute_costs_nonneg cfg h, storage_costs_nonneg cfg h, transfer_costs_nonneg cfg h,
    optimized_compute_costs_nonneg cfg h, optimized_storage_costs_nonneg cfg h,
    optimized_transfer_costs_nonneg cfg h⟩

/-- Witness for claim C8 at a valid configuration with nonzero growth rates. -/
theorem claim_C8_series_nonneg_witness :
    Valid cfg_growth ∧
    ((∀ x ∈ compute_costs cfg_growth, 0 ≤ x) ∧ (∀ x ∈ storage_costs cfg_growth, 0 ≤ x) ∧
    (∀ x ∈ transfer_costs cfg_growth, 0 ≤ x) ∧
    (∀ x ∈ optimized_compute_costs cfg_growth, 0 ≤ x) ∧
    (∀ x ∈ optimized_storage_costs cfg_growth, 0 ≤ x) ∧
    (∀ x ∈ optimized_transfer_costs cfg_growth, 0 ≤ x)) :=
  ⟨by decide, claim_C8_series_nonneg cfg_growth (by decide)⟩

/-- Claim C1 evidence: at cfg_double_discount (base discount 10%, extra
discount 0, all optimization levers off) the pre-discount storage series is
200 per month and the baseline discounted series 180, yet the optimized
storage series is 162 = 200 * 0.9 * 0.9 per month, not the single combined
factor 200 * 0.9 = 180; likewise transfer is 72.9 rather than 81.  The base
discount is applied twice to the optimized storage and transfer series, and
the app reports strictly positive savings although no optimization lever is
set. -/
theorem claim_C1_double_discount_evidence :
    storage_costs_pre cfg_double_discount = List.replicate 12 200 ∧
    storage_costs cfg_double_discount = List.replicate 12 180 ∧
    optimized_storage_costs cfg_double_discount = List.replicate 12 162 ∧
    transfer_costs_pre cfg_double_discount = List.replicate 12 90 ∧
    transfer_costs cfg_double_discount = List.replicate 12 81 ∧
    optimized_transfer_costs cfg_double_discount = List.replicate 12 (729 / 10) ∧
    optimized_storage_costs cfg_double_discount ≠
      (storage_costs_pre cfg_double_discount).map
        (fun s => s * (1 - total_discount_opt cfg_double_discount / 100)) ∧
    0 < total_savings cfg_double_discount := by
  have hsp : storage_costs_pre cfg_double_discount = List.replicate 12 200 := by
    apply map_range_eq_replicate
    intro m hm
    rw [monthly_storage, storage_current_closed]
    norm_num [cfg_double_discount, STORAGE_COST_PER_TB]
  have hs : storage_costs cfg_double_discount = List.replicate 12 180 := by
    rw [storage_costs, hsp, List.map_replicate]
    norm_num [cfg_double_discount]
  have hos : optimized_storage_costs cfg_double_discount = List.replicate 12 162 := by
    rw [optimized_storage_costs, hs, List.map_replicate]
    norm_num [cfg_double_discount, total_discount_opt]
  have htp : transfer_costs_pre cfg_double_discount = List.replicate 12 90 := by
    apply map_range_eq_replicate
    intro m hm
    rw [monthly_transfer, transfer_current_closed]
    norm_num [cfg_double_discount, DATA_TRANSFER_COST_PER_TB]
  have ht : transfer_costs cfg_double_discount = List.replicate 12 81 := by
    rw [transfer_costs, htp, List.map_replicate]
    norm_num [cfg_double_discount]
  have hot : optimized_transfer_costs cfg_double_discount = List.replicate 12 (729 / 10) := by
    rw [optimized_transfer_costs, ht, List.map_replicate]
    norm_num [cfg_double_discount, total_discount_opt]
  have hcp : compute_costs_pre cfg_double_discount = List.replicate 12 2 := by
    apply map_range_eq_replicate
    intro m hm
    norm_num [monthly_compute, base_credits, size_credit_mapping, CREDIT_COST,
      cfg_double_discount]
  have hc : compute_costs cfg_double_discount = List.replicate 12 (9 / 5) := by
    rw [compute_costs, hcp, List.map_replicate]
    norm_num [cfg_double_discount]
  have hocp : optimized_compute_costs_pre cfg_double_discount = List.replicate 12 2 := by
    apply map_range_eq_replicate
    intro m hm
    norm_num [monthly_compute_opt, base_credits_opt, optimized_size_credit,
      effective_hours, size_credit_mapping, CREDIT_COST, cfg_double_discount]
  have hoc : optimized_compute_costs cfg_double_discount = List.replicate 12 (9 / 5) := by
    rw [optimized_compute_costs, hocp, List.map_replicate]
    norm_num [cfg_double_discount, total_discount_opt]
  have hmap : (storage_costs_pre cfg_double_discount).map
      (fun s => s * (1 - total_discount_opt cfg_double_discount / 100)) =
      List.replicate 12 180 := by
    rw [hsp, List.map_replicate]
    norm_num [cfg_double_discount, total_discount_opt]
  have hsav : total_savings cfg_double_discount = 1566 / 5 := by
    unfold total_savings total_annual_cost total_costs total_optimized_annual
      total_optimized_costs
    rw [hc, hs, ht, hoc, hos, hot]
    norm_num [List.replicate_succ]
  refine ⟨hsp, hs, hos, htp, ht, hot, ?_, ?_⟩
  · rw [hos, hmap]
    intro heq
    have h0 : (162 : ℚ) = 180 := by
      have := congrArg (fun l => l.getD 0 0) heq
      simpa [List.replicate_succ] using this
    norm_num at h0
  · rw [hsav]
    norm_num

/-- Claim C9 counterexample: on a configuration with a negative storage volume
the projection raises nothing and produces a complete numeric result (a full
12-month series with negative entries and a negative grand total) instead of
failing with an InvalidInput error. -/
theorem claim_C9_counterexample :
    cfg_invalid.storage_tb < 0 ∧
    ¬ Valid cfg_invalid ∧
    storage_costs cfg_invalid = List.replicate 12 (-40) ∧
    total_annual_cost cfg_invalid = -456 := by
  have hsp : storage_costs_pre cfg_invalid = List.replicate 12 (-40) := by
    apply map_range_eq_replicate
    intro m hm
    rw [monthly_storage, storage_current_closed]
    norm_num [cfg_invalid, STORAGE_COST_PER_TB]
  have hs : storage_costs cfg_invalid = List.replicate 12 (-40) := by
    rw [storage_costs, hsp, List.map_replicate]
    norm_num [cfg_invalid]
  have hcp : compute_costs_pre cfg_invalid = List.replicate 12 2 := by
    apply map_range_eq_replicate
    intro m hm
    norm_num [monthly_compute, base_credits, size_credit_mapping, CREDIT_COST, cfg_invalid]
  have hc : compute_costs cfg_invalid = List.replicate 12 2 := by
    rw [compute_costs, hcp, List.map_replicate]
    norm_num [cfg_invalid]
  have htp : transfer_costs_pre cfg_invalid = List.replicate 12 0 := by
    apply map_range_eq_replicate
    intro m hm
    rw [monthly_transfer, transfer_current_closed]
    norm_num [cfg_invalid]
  have ht : transfer_costs cfg_invalid = List.replicate 12 0 := by
    rw [transfer_costs, htp, List.map_replicate]
    norm_num [cfg_invalid]
  refine ⟨by norm_num [cfg_invalid], ?_, hs, ?_⟩
  · intro hv
    have h6 := hv.2.2.2.2.2.1
    norm_num [cfg_invalid] at h6
  · unfold total_annual_cost total_costs
    rw [hc, hs, ht]
    norm_num [List.replicate_succ]

/-- Claim C9 (amended): the projection performs no input validation and has no
error path at all: for every configuration, valid or not, it runs to
completion and yields full 12-month series and totals. -/
theorem claim_C9_no_error_path (cfg : Config) :
    (compute_costs cfg).length = 12 ∧ (storage_costs cfg).length = 12 ∧
    (transfer_costs cfg).length = 12 ∧ (optimized_compute_costs cfg).length = 12 ∧
    (optimized_storage_costs cfg).length = 12 ∧
    (optimized_transfer_costs cfg).length = 12 ∧
    total_savings cfg = total_annual_cost cfg - total_optimized_annual cfg :=
  ⟨compute_costs_length cfg, storage_costs_length cfg, transfer_costs_length cfg,
    optimized_compute_costs_length cfg, optimized_storage_costs_length cfg,
    optimized_transfer_costs_length cfg, rfl⟩

/-- Claim C10: nothing checks that the requested reduced size is smaller than
the original: at cfg_upsize (X-Small baseline, "reduced" size Large, no
pausing, no discounts) every entry of the optimized compute series strictly
exceeds every entry of the baseline compute series and the total savings
amount is negative. -/
theorem claim_C10_no_downsize_check :
    Valid cfg_upsize ∧
    compute_costs cfg_upsize = List.replicate 12 400 ∧
    optimized_compute_costs cfg_upsize = List.replicate 12 3200 ∧
    (∀ x ∈ compute_costs cfg_upsize, ∀ y ∈ optimized_compute_costs cfg_upsize, x < y) ∧
    total_savings cfg_upsize = -33600 ∧ total_savings cfg_upsize < 0 := by
  have hcp : compute_costs_pre cfg_upsize = List.replicate 12 400 := by
    apply map_range_eq_replicate
    intro m hm
    norm_num [monthly_compute, base_credits, size_credit_mapping, CREDIT_COST, cfg_upsize]
  have hc : compute_costs cfg_upsize = List.replicate 12 400 := by
    rw [compute_costs, hcp, List.map_replicate]
    norm_num [cfg_upsize]
  have hocp : optimized_compute_costs_pre cfg_upsize = List.replicate 12 3200 := by
    apply map_range_eq_replicate
    intro m hm
    norm_num [monthly_compute_opt, base_credits_opt, optimized_size_credit,
      effective_hours, size_credit_mapping, CREDIT_COST, cfg_upsize]
  have hoc : optimized_compute_costs cfg_upsize = List.replicate 12 3200 := by
    rw [optimized_compute_costs, hocp, List.map_replicate]
    norm_num [cfg_upsize, total_discount_opt]
  have hsp : storage_costs_pre cfg_upsize = List.replicate 12 0 := by
    apply map_range_eq_replicate
    intro m hm
    rw [monthly_storage, storage_current_closed]
    norm_num [cfg_upsize]
  have hs : storage_costs cfg_upsize = List.replicate 12 0 := by
    rw [storage_costs, hsp, List.map_replicate]
    norm_num [cfg_upsize]
  have htp : transfer_costs_pre cfg_upsize = List.replicate 12 0 := by
    apply map_range_eq_replicate
    intro m hm
    rw [monthly_transfer, transfer_current_closed]
    norm_num [cfg_upsize]
  have ht : transfer_costs cfg_upsize = List.replicate 12 0 := by
    rw [transfer_costs, htp, List.map_replicate]
    norm_num [cfg_upsize]
  have hos : optimized_storage_costs cfg_upsize = List.replicate 12 0 := by
    rw [optimized_storage_costs, hs, List.map_replicate]
    norm_num
  have hot : optimized_transfer_costs cfg_upsize = List.replicate 12 0 := by
    rw [optimized_transfer_costs, ht, List.map_replicate]
    norm_num
  have hsav : total_savings cfg_upsize = -33600 := by
    unfold total_savings total_annual_cost total_costs total_optimized_annual
      total_optimized_costs
    rw [hc, hs, ht, hoc, hos, hot]
    norm_num [List.replicate_succ]
  refine ⟨by norm_num [Valid, cfg_upsize], hc, hoc, ?_, hsav, by rw [hsav]; norm_num⟩
  intro x hx y hy
  rw [hc] at hx
  rw [hoc] at hy
  rw [List.eq_of_mem_replicate hx, List.eq_of_mem_replicate hy]
  norm_num
